import Mathlib

/-!
# Shallow embedding of the incident rule engine (src/incident.py)

This file embeds the incident-management core of the repository:

* `get_checks_df`   — the Trino dedup query building the check-outcome index
  (src/incident.py lines 33-53);
* `parse_downstream_lineage` — the lineage-graph parser (lines 101-130);
* `delete_workflow` — workflow termination by HTTP DELETE (lines 132-145);
* `post_to_teams` / `send_alert` — webhook alerting (lines 151-167);
* `trigger_rule` / `trigger_all_rules` — rule evaluation and dispatch
  (lines 375-422);
* the positional rule removal of `main` (lines 344-349).

Outbound HTTP is modelled by a `Transport` oracle: each call either yields a
`Response` or fails at the transport layer (`Except.error`, the embedding of a
raised `requests` exception).  Every effectful function additionally returns
the list of outbound `Call`s it issued, so "no request was attempted" is a
provable statement.  Python exceptions propagate as `Except.error` values;
`Streamlit` output is modelled as the message strings carried in results.
-/

/-- An HTTP response as observed by the Python code: `resp.status_code` and
`resp.text`. -/
structure Response where
  status_code : Nat
  text : String
deriving DecidableEq, Repr

/-- An outbound HTTP request issued by the app: a webhook POST or a workflow
DELETE. -/
inductive Call where
  | post (url : String) (payload : String)
  | del (url : String)
deriving DecidableEq, Repr

/-- `true` exactly on workflow-termination (DELETE) requests. -/
def Call.isDel : Call → Bool
  | .post _ _ => false
  | .del _ => true

/-- `true` exactly on webhook (POST) requests. -/
def Call.isPost : Call → Bool
  | .post _ _ => true
  | .del _ => false

/-- The network environment: for each request, either a `Response` or a
transport-layer failure (the embedding of a raised `requests` exception,
carrying the exception text). -/
structure Transport where
  postResp : String → String → Except String Response
  delResp : String → Except String Response

/-- The hardcoded module-level `api_key` of src/incident.py (line 424). -/
def api_key : String := "c3RyZWFtYXBwLjU0N2I0NTg4LTBkZDgtNDZkMC05Y2MwLTUyNjU4NDcxOWIwNg=="

/-- URL built by `delete_workflow` (src/incident.py line 136). -/
def workflowUrl (workflow_name : String) : String :=
  "https://unique-haddock.dataos.app/poros/api/v1/workspaces/public/resources/workflow/" ++ workflow_name

/-- Embeds `post_to_teams` (src/incident.py lines 151-154): POST the payload,
then `raise_for_status`, which raises exactly on status codes `≥ 400`.  The
issued call is logged even when the transport or the status check fails. -/
def post_to_teams (t : Transport) (teams_webhook_url : String) (message : String) :
    Except String Unit × List Call :=
  match t.postResp teams_webhook_url message with
  | .error e => (.error e, [.post teams_webhook_url message])
  | .ok r =>
    (if r.status_code < 400 then .ok ()
     else .error ("HTTPError: " ++ toString r.status_code ++ " " ++ r.text),
     [.post teams_webhook_url message])

/-- Outcome of `send_alert`, carrying the message the Python code writes to
the UI in each branch. -/
inductive AlertOutcome where
  | skipped (msg : String)
  | posted (msg : String)
  | failed (msg : String)
deriving DecidableEq, Repr

/-- Embeds `send_alert` (src/incident.py lines 156-167): empty webhook URL
skips without any request; otherwise the POST is attempted and every
exception is caught (`try`/`except Exception`), so `send_alert` never
propagates a failure. -/
def send_alert (t : Transport) (teams_webhook_url : String) (message : String) :
    AlertOutcome × List Call :=
  if teams_webhook_url = "" then
    (.skipped "No Teams webhook URL provided. Skipping alert.", [])
  else
    match (post_to_teams t teams_webhook_url message).1 with
    | .ok _ =>
      (.posted ("Alert posted to Teams: " ++ teams_webhook_url),
       (post_to_teams t teams_webhook_url message).2)
    | .error e =>
      (.failed ("Error posting to Teams: " ++ e),
       (post_to_teams t teams_webhook_url message).2)

/-- Embeds `delete_workflow` (src/incident.py lines 132-145): DELETE by
workflow name; 200/204 yields `(True, success message)`, any other status
yields `(False, failure message with status and body)`.  A transport-layer
failure of `requests.delete` is uncaught and propagates (`Except.error`). -/
def delete_workflow (t : Transport) (workflow_name : String) :
    Except String (Bool × String) × List Call :=
  match t.delResp (workflowUrl workflow_name) with
  | .error e => (.error e, [.del (workflowUrl workflow_name)])
  | .ok r =>
    (if r.status_code = 200 ∨ r.status_code = 204 then
       .ok (true, "Successfully deleted workflow: " ++ workflow_name)
     else
       .ok (false, "Failed to delete workflow \x27" ++ workflow_name ++ "\x27. Status: "
              ++ toString r.status_code ++ ", Details: " ++ r.text),
     [.del (workflowUrl workflow_name)])

/-- A row of `checks_df` as produced by `get_checks_df`
(src/incident.py line 55): columns `check_name, definition, outcome,
table_name`. -/
structure CheckRow where
  check_name : String
  definition : String
  outcome : String
  table_name : String
deriving DecidableEq, Repr

/-- A rule record as built by the add-rule form (src/incident.py
lines 325-331). -/
structure Rule where
  action_type : String
  check_name : String
  desired_outcome : String
  workflow_name : String
  teams_webhook : String
deriving DecidableEq, Repr

/-- The observable result of `trigger_rule` for one rule: whether it fired,
the UI messages written by the evaluation part, and the outcomes of the two
dispatched actions (when reached). -/
structure TriggerResult where
  fired : Bool
  messages : List String
  alert : Option AlertOutcome
  termination : Option (Bool × String)
deriving DecidableEq, Repr

/-- The lookup `checks_df[checks_df["check_name"] == check_name]` followed by
`.iloc[0]` (src/incident.py lines 390, 395): the first row of the snapshot
whose `check_name` matches, if any. -/
def rule_lookup (checks_df : List CheckRow) (check_name : String) : Option CheckRow :=
  (checks_df.filter (fun r => r.check_name = check_name)).head?

/-- Message of src/incident.py line 392. -/
def notFoundMsg (idx : Nat) (check_name : String) : String :=
  "[Rule " ++ toString idx ++ "] Check \x27" ++ check_name ++ "\x27 not found in checks_df."

/-- Message of src/incident.py line 399. -/
def triggeredMsg (idx : Nat) (check_name current : String) : String :=
  "**[Rule " ++ toString idx ++ "]** TRIGGERED for check: " ++ check_name
    ++ " (current outcome=" ++ current ++ ")."

/-- Message of src/incident.py line 414. -/
def notTriggeredMsg (idx : Nat) (current desired : String) : String :=
  "[Rule " ++ toString idx ++ "] NOT triggered. Current outcome=\x27" ++ current
    ++ "\x27, desired=\x27" ++ desired ++ "\x27."

/-- Alert message composed at src/incident.py line 402. -/
def alertMsg (check_name current : String) : String :=
  "Check \x27" ++ check_name ++ "\x27 has outcome \x27" ++ current ++ "\x27, rule triggered."

/-- The pure evaluation part of `trigger_rule` (src/incident.py lines
389-399 and 412-414): look the check up in the snapshot, compare the current
outcome with the desired one, and produce the fired flag plus the message
those lines write.  These lines perform no I/O and cannot raise: the `.empty`
guard precedes the `.iloc[0]` access. -/
def evaluate_rule (checks_df : List CheckRow) (rule : Rule) (idx : Nat) : Bool × String :=
  match rule_lookup checks_df rule.check_name with
  | none => (false, notFoundMsg idx rule.check_name)
  | some row =>
    if row.outcome = rule.desired_outcome then
      (true, triggeredMsg idx rule.check_name row.outcome)
    else
      (false, notTriggeredMsg idx row.outcome rule.desired_outcome)

/-- Embeds `trigger_rule` (src/incident.py lines 375-414).  The evaluation
part decides fired/not-fired; a fired rule dispatches the alert (whose
failures are all caught inside `send_alert`) and, when
`action_type == "Alert + Pipeline Break"` and the stored workflow name is
non-empty, the workflow deletion, whose transport-layer failures are uncaught
and propagate out of `trigger_rule`. -/
def trigger_rule (t : Transport) (checks_df : List CheckRow) (rule : Rule) (idx : Nat) :
    Except String TriggerResult × List Call :=
  match rule_lookup checks_df rule.check_name with
  | none => (.ok ⟨false, [notFoundMsg idx rule.check_name], none, none⟩, [])
  | some row =>
    if row.outcome = rule.desired_outcome then
      if rule.action_type = "Alert + Pipeline Break" ∧ rule.workflow_name ≠ "" then
        match (delete_workflow t rule.workflow_name).1 with
        | .ok sm =>
          (.ok ⟨true, [triggeredMsg idx rule.check_name row.outcome],
                some (send_alert t rule.teams_webhook (alertMsg rule.check_name row.outcome)).1,
                some sm⟩,
           (send_alert t rule.teams_webhook (alertMsg rule.check_name row.outcome)).2
             ++ (delete_workflow t rule.workflow_name).2)
        | .error e =>
          (.error e,
           (send_alert t rule.teams_webhook (alertMsg rule.check_name row.outcome)).2
             ++ (delete_workflow t rule.workflow_name).2)
      else
        (.ok ⟨true, [triggeredMsg idx rule.check_name row.outcome],
              some (send_alert t rule.teams_webhook (alertMsg rule.check_name row.outcome)).1,
              none⟩,
         (send_alert t rule.teams_webhook (alertMsg rule.check_name row.outcome)).2)
    else
      (.ok ⟨false, [notTriggeredMsg idx row.outcome rule.desired_outcome], none, none⟩, [])

/-- The loop body of `trigger_all_rules` (src/incident.py lines 416-422),
carrying the 1-based display index of `enumerate(..., start=1)`.  An
exception raised by any `trigger_rule` aborts the loop and propagates; calls
issued before the failure have already happened and stay logged. -/
def trigger_loop (t : Transport) (checks_df : List CheckRow) :
    Nat → List Rule → Except String (List TriggerResult) × List Call
  | _, [] => (.ok [], [])
  | k, rule :: rest =>
    match (trigger_rule t checks_df rule k).1 with
    | .error e => (.error e, (trigger_rule t checks_df rule k).2)
    | .ok r =>
      match (trigger_loop t checks_df (k + 1) rest).1 with
      | .error e =>
        (.error e, (trigger_rule t checks_df rule k).2 ++ (trigger_loop t checks_df (k + 1) rest).2)
      | .ok rs =>
        (.ok (r :: rs), (trigger_rule t checks_df rule k).2 ++ (trigger_loop t checks_df (k + 1) rest).2)

/-- Embeds `trigger_all_rules` (src/incident.py lines 416-422): evaluate
every stored rule in list order, starting the display index at 1. -/
def trigger_all_rules (t : Transport) (checks_df : List CheckRow) (rules : List Rule) :
    Except String (List TriggerResult) × List Call :=
  trigger_loop t checks_df 1 rules

/-! ## Rule removal (src/incident.py lines 344-349)

The delete button for display position `i+1` runs
`st.session_state.rules.pop(i)`: removal of the element at position `i` of
the live rule list. -/

/-- Embeds `st.session_state.rules.pop(i)` (src/incident.py line 348):
positional removal from the rule list. -/
def removeRule (rules : List Rule) (i : Nat) : List Rule :=
  rules.eraseIdx i

/-! ## The check-outcome index (src/incident.py lines 11-56)

`get_checks_df` runs a Trino query over the raw `checks` table:

```
SELECT check_name, definition, outcome, table_name FROM (
  SELECT name AS check_name, definition, outcome, table_name, created_at,
         row_number() OVER (PARTITION BY name ORDER BY created_at DESC) AS rn
  FROM "icebase"."coke_dummy".checks)
WHERE rn = 1
```

We embed the query's semantics over an abstract base table of raw rows.  The
SQL leaves the order of rows with equal `created_at` inside a partition
unspecified; the embedding breaks such ties by arrival order with the last
row winning, one refinement of the query's behaviour. -/

/-- A raw row of the `"icebase"."coke_dummy".checks` base table, with the
columns the query of src/incident.py lines 33-53 reads.  `created_at` is an
abstract timestamp. -/
structure RawCheck where
  name : String
  definition : String
  outcome : String
  table_name : String
  created_at : Nat
deriving DecidableEq, Repr

/-- The comparison performed by `ORDER BY created_at DESC`: of two rows of a
partition, the one with the larger `created_at` ranks first; on equal
timestamps the later-arriving row wins (the SQL leaves this unspecified). -/
def laterOf (a b : RawCheck) : RawCheck :=
  if a.created_at ≤ b.created_at then b else a

/-- Select the `rn = 1` row of a non-empty partition: the fold of `laterOf`
over the partition's rows in arrival order. -/
def best1 (a : RawCheck) : List RawCheck → RawCheck
  | [] => a
  | r :: rs => best1 (laterOf a r) rs

/-- The `rn = 1` row of the partition of `rows` with `name = n`, if the
partition is non-empty. -/
def pickLatest (n : String) (rows : List RawCheck) : Option RawCheck :=
  match rows.filter (fun r => r.name = n) with
  | [] => none
  | r :: rs => some (best1 r rs)

/-- The outer projection of the query: drop `created_at` and `rn`. -/
def projectRow (r : RawCheck) : CheckRow :=
  ⟨r.name, r.definition, r.outcome, r.table_name⟩

/-- Embeds `get_checks_df` (src/incident.py lines 11-56): the DataFrame the
query returns, one projected `rn = 1` row per distinct `name` occurring in
the base table. -/
def get_checks_df (rows : List RawCheck) : List CheckRow :=
  ((rows.map RawCheck.name).dedup).filterMap
    (fun n => (pickLatest n rows).map projectRow)

/-! ## The lineage parser (src/incident.py lines 101-130) -/

/-- Tail of the embedding of Python `str.split(".")`: walk the characters,
cutting a segment at every dot; `acc` holds the current segment reversed. -/
def splitDotsAux : List Char → List Char → List String
  | [], acc => [String.mk acc.reverse]
  | c :: cs, acc =>
    if c = '.' then String.mk acc.reverse :: splitDotsAux cs []
    else splitDotsAux cs (c :: acc)

/-- Embeds Python `wf_fqn.split(".")` (src/incident.py line 119): split on
every dot, keeping empty segments, with `[""]` for the empty string. -/
def splitDots (s : String) : List String :=
  splitDotsAux s.data []

/-- A node of the lineage response: `id`, `type` and `fullyQualifiedName`
(the fields read at src/incident.py lines 106, 117-123).  A node whose JSON
lacks `fullyQualifiedName` is embedded with the `""` default of `.get`. -/
structure LNode where
  id : String
  type : String
  fullyQualifiedName : String
deriving DecidableEq, Repr

/-- An entry of `downstreamEdges`: the `fromEntity` and `toEntity` node
ids. -/
structure LEdge where
  fromEntity : String
  toEntity : String
deriving DecidableEq, Repr

/-- The lineage JSON as consumed by the parser. -/
structure LineageJson where
  nodes : List LNode
  downstreamEdges : List LEdge
deriving DecidableEq, Repr

/-- Embeds `node_lookup = {node["id"]: node for node in nodes}`
(src/incident.py line 106): a later node with the same id overwrites an
earlier one. -/
def node_lookup (nodes : List LNode) (i : String) : Option LNode :=
  nodes.foldl (fun acc n => if n.id = i then some n else acc) none

/-- The contribution of one edge (src/incident.py lines 110-129): resolve
both endpoints; a `dataosJob` source with at least three dot-separated
segments in its qualified name yields the segment at index 2 as the workflow
name, a `table` target yields its qualified name as the dataset.  The pair
is kept only when both are present and non-empty (Python truthiness of
`if workflow_name and downstream_tbl`). -/
def edge_pair (lookup : String → Option LNode) (e : LEdge) : Option (String × String) :=
  let from_node := lookup e.fromEntity
  let to_node := lookup e.toEntity
  let workflow_name : Option String :=
    match from_node with
    | some n =>
      if n.type = "dataosJob" then
        if (splitDots n.fullyQualifiedName).length > 2 then
          some ((splitDots n.fullyQualifiedName).getD 2 "")
        else none
      else none
    | none => none
  let downstream_tbl : Option String :=
    match to_node with
    | some n => if n.type = "table" then some n.fullyQualifiedName else none
    | none => none
  match workflow_name, downstream_tbl with
  | some w, some d => if w ≠ "" ∧ d ≠ "" then some (w, d) else none
  | _, _ => none

/-- Embeds `parse_downstream_lineage` (src/incident.py lines 101-130): the
list of `{downstream_workflow_name, downstream_datasets}` records, one per
contributing edge, in edge order. -/
def parse_downstream_lineage (g : LineageJson) : List (String × String) :=
  g.downstreamEdges.filterMap (edge_pair (node_lookup g.nodes))

/-- The `ImpactIndex` view of the parser's output, following the spec's
words (§3, §4.1): the mapping sends a workflow name to the set of dataset
names paired with it, duplicate contributions merged.  Used to compare the
source's record list against the spec's mapping-of-sets description. -/
def impactIndex (g : LineageJson) (w : String) : List String :=
  (((parse_downstream_lineage g).filter (fun p => p.1 = w)).map (fun p => p.2)).dedup

/-! ## Concrete environments and fixtures used by witnesses and
counterexamples -/

/-- Environment where every outbound call succeeds: webhooks answer 200,
deletions answer 204. -/
def tOk : Transport := ⟨fun _ _ => .ok ⟨200, "ok"⟩, fun _ => .ok ⟨204, ""⟩⟩

/-- Environment whose termination endpoint answers 404 (workflow already
gone); webhooks answer 200. -/
def t404 : Transport := ⟨fun _ _ => .ok ⟨200, "ok"⟩, fun _ => .ok ⟨404, "workflow not found"⟩⟩

/-- Environment whose termination endpoint answers 500; webhooks
answer 200. -/
def t500 : Transport := ⟨fun _ _ => .ok ⟨200, "ok"⟩, fun _ => .ok ⟨500, "server error"⟩⟩

/-- Environment whose termination endpoint fails at the transport layer (the
`requests.delete` call raises); webhooks answer 200. -/
def tDown : Transport := ⟨fun _ _ => .ok ⟨200, "ok"⟩, fun _ => .error "ConnectionError: boom"⟩

/-- Environment whose webhook endpoint fails at the transport layer while
deletions answer 204. -/
def tPostDown : Transport :=
  ⟨fun _ _ => .error "ConnectionError: hook unreachable", fun _ => .ok ⟨204, ""⟩⟩

/-- A one-row outcome snapshot: check `c1` currently fails. -/
def df1 : List CheckRow := [⟨"c1", "d", "fail", "t"⟩]

/-- A snapshot with two rows for `c1`; only the first can matter. -/
def dfDup : List CheckRow := [⟨"c1", "d", "fail", "t"⟩, ⟨"c1", "d", "pass", "t2"⟩]

/-- An Alert + Pipeline Break rule on `c1`, terminating `wf1`. -/
def ruleT : Rule := ⟨"Alert + Pipeline Break", "c1", "fail", "wf1", "http://hook"⟩

/-- An alert-only rule on `c1` with a webhook configured. -/
def ruleA : Rule := ⟨"Alert Only", "c1", "fail", "", "http://hook2"⟩

/-- A second, distinct alert-only rule. -/
def ruleB : Rule := ⟨"Alert Only", "c2", "pass", "", ""⟩

/-- A fired rule with no webhook configured. -/
def ruleNoHook : Rule := ⟨"Alert Only", "c1", "fail", "", ""⟩

/-- An Alert + Pipeline Break rule whose stored workflow name is empty. -/
def ruleEmptyWf : Rule := ⟨"Alert + Pipeline Break", "c1", "fail", "", "http://hook"⟩

/-- A rule naming a check absent from every fixture snapshot. -/
def ruleMissing : Rule := ⟨"Alert Only", "missing", "fail", "", ""⟩

/-- A raw base table with two historical rows for `c1` and one for `c2`. -/
def demoRaw : List RawCheck :=
  [⟨"c1", "d", "pass", "t", 5⟩, ⟨"c1", "d", "fail", "t", 9⟩, ⟨"c2", "d", "pass", "t", 1⟩]

/-- The spec's parser round-trip graph: one Job node `a.b.myworkflow` with
one edge to a Table node `cat.cat.schema.table`. -/
def demoGraph : LineageJson :=
  ⟨[⟨"n1", "dataosJob", "a.b.myworkflow"⟩, ⟨"n2", "table", "cat.cat.schema.table"⟩],
   [⟨"n1", "n2"⟩]⟩

/-! ## Helper lemmas -/

theorem laterOf_cases (a b : RawCheck) : laterOf a b = a ∨ laterOf a b = b := by
  unfold laterOf
  split
  · right; rfl
  · left; rfl

theorem le_laterOf_left (a b : RawCheck) : a.created_at ≤ (laterOf a b).created_at := by
  unfold laterOf
  split <;> omega

theorem le_laterOf_right (a b : RawCheck) : b.created_at ≤ (laterOf a b).created_at := by
  unfold laterOf
  split <;> omega

theorem best1_mem (l : List RawCheck) (a : RawCheck) : best1 a l = a ∨ best1 a l ∈ l := by
  induction l generalizing a with
  | nil => left; rfl
  | cons r rs ih =>
    have hstep : best1 a (r :: rs) = best1 (laterOf a r) rs := rfl
    rcases ih (laterOf a r) with h | h
    · rcases laterOf_cases a r with h2 | h2
      · left; rw [hstep, h, h2]
      · right; rw [hstep, h, h2]; exact List.mem_cons_self r rs
    · right; rw [hstep]; exact List.mem_cons_of_mem r h

theorem best1_le (l : List RawCheck) : ∀ (a x : RawCheck), (x = a ∨ x ∈ l) →
    x.created_at ≤ (best1 a l).created_at := by
  induction l with
  | nil =>
    intro a x h
    rcases h with rfl | h
    · exact Nat.le_refl _
    · cases h
  | cons r rs ih =>
    intro a x h
    have hstep : best1 a (r :: rs) = best1 (laterOf a r) rs := rfl
    rw [hstep]
    rcases h with rfl | h
    · exact Nat.le_trans (le_laterOf_left x r) (ih (laterOf x r) (laterOf x r) (Or.inl rfl))
    · rcases List.mem_cons.mp h with rfl | h
      · exact Nat.le_trans (le_laterOf_right a x) (ih (laterOf a x) (laterOf a x) (Or.inl rfl))
      · exact ih (laterOf a r) x (Or.inr h)

theorem pickLatest_spec (n : String) (rows : List RawCheck) (r : RawCheck)
    (h : pickLatest n rows = some r) :
    r ∈ rows ∧ r.name = n ∧ ∀ x ∈ rows, x.name = n → x.created_at ≤ r.created_at := by
  unfold pickLatest at h
  cases hf : rows.filter (fun x => x.name = n) with
  | nil => rw [hf] at h; cases h
  | cons y ys =>
    rw [hf] at h
    have hr : r = best1 y ys := (Option.some.inj h).symm
    have hmem : r ∈ y :: ys := by
      rcases best1_mem ys y with h1 | h1
      · rw [hr, h1]; exact List.mem_cons_self y ys
      · rw [hr]; exact List.mem_cons_of_mem y h1
    have hfil : r ∈ rows.filter (fun x => x.name = n) := by rw [hf]; exact hmem
    have hrn := List.mem_filter.mp hfil
    refine ⟨hrn.1, by simpa using hrn.2, ?_⟩
    intro x hx hxn
    have hxf : x ∈ rows.filter (fun z => z.name = n) :=
      List.mem_filter.mpr ⟨hx, by simpa using hxn⟩
    rw [hf] at hxf
    rw [hr]
    rcases List.mem_cons.mp hxf with rfl | hxys
    · exact best1_le ys x x (Or.inl rfl)
    · exact best1_le ys y x (Or.inr hxys)

theorem pickLatest_isSome (n : String) (rows : List RawCheck)
    (h : ∃ x, x ∈ rows ∧ x.name = n) : ∃ r, pickLatest n rows = some r := by
  obtain ⟨x, hx, hxn⟩ := h
  unfold pickLatest
  cases hf : rows.filter (fun z => z.name = n) with
  | nil =>
    have : x ∈ rows.filter (fun z => z.name = n) :=
      List.mem_filter.mpr ⟨hx, by simpa using hxn⟩
    rw [hf] at this
    cases this
  | cons y ys => exact ⟨best1 y ys, rfl⟩

theorem send_alert_no_del (t : Transport) (url message : String) :
    ((send_alert t url message).2.filter Call.isDel) = [] := by
  unfold send_alert post_to_teams
  by_cases h : url = ""
  · simp [h]
  · simp only [h, if_false]
    cases t.postResp url message with
    | error e => simp [Call.isDel]
    | ok r =>
      by_cases hs : r.status_code < 400 <;> simp [hs, Call.isDel]

theorem delete_workflow_calls (t : Transport) (w : String) :
    (delete_workflow t w).2 = [.del (workflowUrl w)] := by
  unfold delete_workflow
  cases t.delResp (workflowUrl w) with
  | error e => rfl
  | ok r => rfl

theorem send_alert_calls_posts (t : Transport) (url message : String) :
    ((send_alert t url message).2.filter Call.isPost) = (send_alert t url message).2 := by
  unfold send_alert post_to_teams
  by_cases h : url = ""
  · simp [h]
  · simp only [h, if_false]
    cases t.postResp url message with
    | error e => simp [Call.isPost]
    | ok r =>
      by_cases hs : r.status_code < 400 <;> simp [hs, Call.isPost]

theorem send_alert_empty (t : Transport) (message : String) :
    send_alert t "" message = (.skipped "No Teams webhook URL provided. Skipping alert.", []) := by
  simp [send_alert]

theorem trigger_rule_none (t : Transport) (df : List CheckRow) (rule : Rule) (idx : Nat)
    (h : rule_lookup df rule.check_name = none) :
    trigger_rule t df rule idx
      = (.ok ⟨false, [notFoundMsg idx rule.check_name], none, none⟩, []) := by
  unfold trigger_rule
  rw [h]

theorem trigger_rule_miss (t : Transport) (df : List CheckRow) (rule : Rule) (idx : Nat)
    (row : CheckRow) (h : rule_lookup df rule.check_name = some row)
    (ho : row.outcome ≠ rule.desired_outcome) :
    trigger_rule t df rule idx
      = (.ok ⟨false, [notTriggeredMsg idx row.outcome rule.desired_outcome], none, none⟩, []) := by
  unfold trigger_rule
  rw [h]
  simp only [ho, if_false]

theorem trigger_rule_hit_alert_only (t : Transport) (df : List CheckRow) (rule : Rule) (idx : Nat)
    (row : CheckRow) (h : rule_lookup df rule.check_name = some row)
    (ho : row.outcome = rule.desired_outcome)
    (hb : ¬(rule.action_type = "Alert + Pipeline Break" ∧ rule.workflow_name ≠ "")) :
    trigger_rule t df rule idx
      = (.ok ⟨true, [triggeredMsg idx rule.check_name row.outcome],
              some (send_alert t rule.teams_webhook (alertMsg rule.check_name row.outcome)).1,
              none⟩,
         (send_alert t rule.teams_webhook (alertMsg rule.check_name row.outcome)).2) := by
  unfold trigger_rule
  rw [h]
  simp only [ho, if_true, hb, if_false, if_pos rfl]

theorem trigger_rule_hit_break_ok (t : Transport) (df : List CheckRow) (rule : Rule) (idx : Nat)
    (row : CheckRow) (sm : Bool × String) (h : rule_lookup df rule.check_name = some row)
    (ho : row.outcome = rule.desired_outcome)
    (hb : rule.action_type = "Alert + Pipeline Break" ∧ rule.workflow_name ≠ "")
    (hd : (delete_workflow t rule.workflow_name).1 = .ok sm) :
    trigger_rule t df rule idx
      = (.ok ⟨true, [triggeredMsg idx rule.check_name row.outcome],
              some (send_alert t rule.teams_webhook (alertMsg rule.check_name row.outcome)).1,
              some sm⟩,
         (send_alert t rule.teams_webhook (alertMsg rule.check_name row.outcome)).2
           ++ (delete_workflow t rule.workflow_name).2) := by
  unfold trigger_rule
  rw [h]
  simp [ho, hb, hd]

theorem trigger_rule_hit_break_error (t : Transport) (df : List CheckRow) (rule : Rule) (idx : Nat)
    (row : CheckRow) (e : String) (h : rule_lookup df rule.check_name = some row)
    (ho : row.outcome = rule.desired_outcome)
    (hb : rule.action_type = "Alert + Pipeline Break" ∧ rule.workflow_name ≠ "")
    (hd : (delete_workflow t rule.workflow_name).1 = .error e) :
    trigger_rule t df rule idx
      = (.error e,
         (send_alert t rule.teams_webhook (alertMsg rule.check_name row.outcome)).2
           ++ (delete_workflow t rule.workflow_name).2) := by
  unfold trigger_rule
  rw [h]
  simp [ho, hb, hd]

/-! ## Claims about rule removal, alert skipping, empty workflow names, and
duplicate snapshot rows -/

/-- C6 counterexample: rule removal (src/incident.py line 348,
`st.session_state.rules.pop(i)`) is keyed by position, not by rule identity:
the same index argument removes different rules depending on where they sit,
and after the removal the same position denotes a different rule. -/
theorem claim6_counterexample :
    ruleA ≠ ruleB
    ∧ removeRule [ruleA, ruleB] 0 = [ruleB]
    ∧ removeRule [ruleB, ruleA] 0 = [ruleA]
    ∧ (removeRule [ruleA, ruleB] 0)[0]? = some ruleB := by
  refine ⟨by decide, rfl, rfl, rfl⟩

/-- C6 (amended): rule removal is positional: deleting index `i` removes the
`i`-th rule of the live sequence, keeps the rules before `i` at their
positions, and shifts every rule at or after `i` down by one, so a
positional reference to any index `≥ i` subsequently denotes a different
rule. -/
theorem claim6_amended_positional :
    ∀ (rules : List Rule) (i : Nat), i < rules.length →
      (removeRule rules i).length = rules.length - 1
      ∧ (∀ j, j < i → (removeRule rules i)[j]? = rules[j]?)
      ∧ (∀ j, i ≤ j → (removeRule rules i)[j]? = rules[j + 1]?) := by
  intro rules
  induction rules with
  | nil => intro i h; simp at h
  | cons a l ih =>
    intro i h
    cases i with
    | zero =>
      refine ⟨by simp [removeRule], ?_, ?_⟩
      · intro j hj; omega
      · intro j _
        simp [removeRule]
    | succ i2 =>
      have h2 : i2 < l.length := by simpa using Nat.lt_of_succ_lt_succ h
      obtain ⟨hl, hlt, hge⟩ := ih i2 h2
      have hstep : removeRule (a :: l) (i2 + 1) = a :: removeRule l i2 := by
        simp [removeRule]
      refine ⟨?_, ?_, ?_⟩
      · rw [hstep]
        simp only [List.length_cons, hl]
        omega
      · intro j hj
        cases j with
        | zero => rw [hstep]; simp
        | succ j2 =>
          rw [hstep]
          simpa using hlt j2 (Nat.lt_of_succ_lt_succ hj)
      · intro j hj
        cases j with
        | zero => omega
        | succ j2 =>
          rw [hstep]
          simpa using hge j2 (Nat.le_of_succ_le_succ hj)

/-- C6 amended, witness at a concrete input. -/
theorem claim6_amended_witness :
    (removeRule [ruleA, ruleB] 0).length = ([ruleA, ruleB] : List Rule).length - 1 :=
  (claim6_amended_positional [ruleA, ruleB] 0 (by decide)).1

/-- C7: for a rule whose webhook target is the empty string, the alert
outcome is the skipped one (src/incident.py lines 160-162), never the failed
one: no POST request appears in the call log, and a fired rule's result
carries the skip message, not a failure. -/
theorem claim7_skip_on_empty_webhook :
    ∀ (t : Transport) (message : String) (df : List CheckRow) (rule : Rule) (idx : Nat),
      send_alert t "" message = (.skipped "No Teams webhook URL provided. Skipping alert.", [])
      ∧ (rule.teams_webhook = "" →
          (trigger_rule t df rule idx).2.filter Call.isPost = []
          ∧ ∀ res, (trigger_rule t df rule idx).1 = .ok res → res.fired = true →
              res.alert = some (.skipped "No Teams webhook URL provided. Skipping alert.")) := by
  intro t message df rule idx
  refine ⟨send_alert_empty t message, ?_⟩
  intro hwb
  have hsa : ∀ m, send_alert t rule.teams_webhook m
      = (.skipped "No Teams webhook URL provided. Skipping alert.", []) := by
    intro m; rw [hwb]; exact send_alert_empty t m
  cases h : rule_lookup df rule.check_name with
  | none =>
    rw [trigger_rule_none t df rule idx h]
    refine ⟨rfl, ?_⟩
    intro res hres hf
    cases Except.ok.inj hres
    cases hf
  | some row =>
    by_cases ho : row.outcome = rule.desired_outcome
    · by_cases hb : rule.action_type = "Alert + Pipeline Break" ∧ rule.workflow_name ≠ ""
      · cases hd : (delete_workflow t rule.workflow_name).1 with
        | ok sm =>
          rw [trigger_rule_hit_break_ok t df rule idx row sm h ho hb hd]
          refine ⟨?_, ?_⟩
          · rw [hsa]
            simp [delete_workflow_calls, Call.isPost]
          · intro res hres hf
            cases Except.ok.inj hres
            rw [hsa]
        | error e =>
          rw [trigger_rule_hit_break_error t df rule idx row e h ho hb hd]
          refine ⟨?_, ?_⟩
          · rw [hsa]
            simp [delete_workflow_calls, Call.isPost]
          · intro res hres
            cases hres
      · rw [trigger_rule_hit_alert_only t df rule idx row h ho hb]
        refine ⟨?_, ?_⟩
        · rw [hsa]
          rfl
        · intro res hres hf
          cases Except.ok.inj hres
          rw [hsa]
    · rw [trigger_rule_miss t df rule idx row h ho]
      refine ⟨rfl, ?_⟩
      intro res hres hf
      cases Except.ok.inj hres
      cases hf

/-- C7, witness: a fired rule with an empty webhook target in the
all-success environment: no POST appears in the call log. -/
theorem claim7_witness :
    (trigger_rule tOk df1 ruleNoHook 1).2.filter Call.isPost = [] :=
  ((claim7_skip_on_empty_webhook tOk "m" df1 ruleNoHook 1).2 rfl).1

/-- C9: for a rule whose stored workflow name is the empty string, no
workflow-termination request is ever issued — even when the action type is
"Alert + Pipeline Break" — because `trigger_rule` re-checks the workflow
name at trigger time (src/incident.py line 406): the call log contains no
DELETE, the call always returns a result, and that result carries no
termination outcome. -/
theorem claim9_no_delete_on_empty_workflow :
    ∀ (t : Transport) (df : List CheckRow) (rule : Rule) (idx : Nat),
      rule.workflow_name = "" →
      (trigger_rule t df rule idx).2.filter Call.isDel = []
      ∧ (trigger_rule t df rule idx).1.toOption.map (fun r => r.termination) = some none := by
  intro t df rule idx hw
  have hb : ¬(rule.action_type = "Alert + Pipeline Break" ∧ rule.workflow_name ≠ "") := by
    intro hc
    exact hc.2 hw
  cases h : rule_lookup df rule.check_name with
  | none =>
    rw [trigger_rule_none t df rule idx h]
    exact ⟨rfl, rfl⟩
  | some row =>
    by_cases ho : row.outcome = rule.desired_outcome
    · rw [trigger_rule_hit_alert_only t df rule idx row h ho hb]
      exact ⟨send_alert_no_del t rule.teams_webhook (alertMsg rule.check_name row.outcome), rfl⟩
    · rw [trigger_rule_miss t df rule idx row h ho]
      exact ⟨rfl, rfl⟩

/-- C9, witness: a fired Alert + Pipeline Break rule with an empty stored
workflow name issues no DELETE. -/
theorem claim9_witness :
    (trigger_rule tOk df1 ruleEmptyWf 1).2.filter Call.isDel = [] :=
  (claim9_no_delete_on_empty_workflow tOk df1 ruleEmptyWf 1 rfl).1

/-- C10: evaluation and dispatch of a rule are determined solely by the
outcome of the first row of the snapshot whose `check_name` matches
(`.iloc[0]`, src/incident.py line 395): two snapshots whose first matching
rows carry the same outcome produce identical results, so rows after the
first never affect whether the rule fires or which outcome its messages
report. -/
theorem claim10_first_row_determines :
    ∀ (t : Transport) (dfA dfB : List CheckRow) (rule : Rule) (idx : Nat),
      (rule_lookup dfA rule.check_name).map CheckRow.outcome
        = (rule_lookup dfB rule.check_name).map CheckRow.outcome →
      trigger_rule t dfA rule idx = trigger_rule t dfB rule idx
      ∧ evaluate_rule dfA rule idx = evaluate_rule dfB rule idx := by
  intro t dfA dfB rule idx hh
  cases h1 : rule_lookup dfA rule.check_name with
  | none =>
    cases h2 : rule_lookup dfB rule.check_name with
    | none =>
      constructor
      · rw [trigger_rule_none t dfA rule idx h1, trigger_rule_none t dfB rule idx h2]
      · unfold evaluate_rule
        rw [h1, h2]
    | some r2 => rw [h1, h2] at hh; cases hh
  | some r1 =>
    cases h2 : rule_lookup dfB rule.check_name with
    | none => rw [h1, h2] at hh; cases hh
    | some r2 =>
      rw [h1, h2] at hh
      have ho : r1.outcome = r2.outcome := by simpa using hh
      constructor
      · simp [trigger_rule, h1, h2, ho]
      · simp [evaluate_rule, h1, h2, ho]

/-- C10, witness: a snapshot with a second, contradictory row for `c1`
yields the same result as the one-row snapshot with the same first row. -/
theorem claim10_witness :
    trigger_rule tOk dfDup ruleA 1 = trigger_rule tOk df1 ruleA 1 :=
  (claim10_first_row_determines tOk dfDup df1 ruleA 1 rfl).1

/-! ## Claims about evaluation, termination status, and failure isolation -/

/-- C4: evaluation of a rule against an outcome snapshot is total and never
throws: an absent check name yields `fired = false` with the not-found
message (a reported condition, and `trigger_rule` still returns normally
with an empty call log); a first matching row whose outcome equals the
desired one yields `fired = true`; any other row yields `fired = false`
with the message stating the current and desired outcomes. -/
theorem claim4_eval_never_throws :
    ∀ (t : Transport) (df : List CheckRow) (rule : Rule) (idx : Nat),
      (rule_lookup df rule.check_name = none →
        evaluate_rule df rule idx = (false, notFoundMsg idx rule.check_name)
        ∧ trigger_rule t df rule idx
            = (.ok ⟨false, [notFoundMsg idx rule.check_name], none, none⟩, []))
      ∧ (∀ row, rule_lookup df rule.check_name = some row →
          (row.outcome = rule.desired_outcome →
            evaluate_rule df rule idx = (true, triggeredMsg idx rule.check_name row.outcome))
          ∧ (row.outcome ≠ rule.desired_outcome →
            evaluate_rule df rule idx
                = (false, notTriggeredMsg idx row.outcome rule.desired_outcome)
            ∧ trigger_rule t df rule idx
                = (.ok ⟨false, [notTriggeredMsg idx row.outcome rule.desired_outcome],
                        none, none⟩, []))) := by
  intro t df rule idx
  constructor
  · intro h
    exact ⟨by simp [evaluate_rule, h], trigger_rule_none t df rule idx h⟩
  · intro row h
    constructor
    · intro ho
      simp [evaluate_rule, h, ho]
    · intro ho
      exact ⟨by simp [evaluate_rule, h, ho], trigger_rule_miss t df rule idx row h ho⟩

/-- C4, witness: a rule naming an absent check evaluates to not-fired with
the not-found message and `trigger_rule` returns normally. -/
theorem claim4_witness :
    evaluate_rule df1 ruleMissing 1 = (false, notFoundMsg 1 "missing")
    ∧ trigger_rule tOk df1 ruleMissing 1
        = (.ok ⟨false, [notFoundMsg 1 "missing"], none, none⟩, []) :=
  (claim4_eval_never_throws tOk df1 ruleMissing 1).1 rfl

/-- C2 counterexample: the claim that a 404 response to the termination
DELETE yields a distinct non-fatal NotFound outcome is false on the code:
`delete_workflow` (src/incident.py lines 139-145) knows only the success
branch (200/204) and one failure branch, so a 404 produces exactly the
generic `(False, "Failed to delete workflow ...")` result — the same shape
a 500 produces — and the fired rule's termination outcome records that
failure. -/
theorem claim2_counterexample :
    (trigger_rule t404 df1 ruleT 1).1
        = .ok ⟨true, [triggeredMsg 1 "c1" "fail"],
               some (.posted "Alert posted to Teams: http://hook"),
               some (false,
                 "Failed to delete workflow \x27wf1\x27. Status: 404, Details: workflow not found")⟩
    ∧ (delete_workflow t404 "wf1").1
        = .ok (false, "Failed to delete workflow \x27wf1\x27. Status: 404, Details: workflow not found")
    ∧ (delete_workflow t500 "wf1").1
        = .ok (false, "Failed to delete workflow \x27wf1\x27. Status: 500, Details: server error") :=
  ⟨rfl, rfl, rfl⟩

/-- C2 (amended): for a fired Alert + Pipeline Break rule, the termination
result depends only on the response status: 200 or 204 yields the success
result, and every other status — 404 included — yields the same failure
result `(False, message)` with the status and body captured in the message;
there is no distinct NotFound outcome.  The alert component of the result is
the `send_alert` value, which does not consult the termination endpoint, so
the alert status is unaffected by the termination response. -/
theorem claim2_amended_404_is_failed :
    ∀ (t : Transport) (df : List CheckRow) (rule : Rule) (row : CheckRow) (idx st : Nat)
      (body : String),
      rule_lookup df rule.check_name = some row →
      row.outcome = rule.desired_outcome →
      rule.action_type = "Alert + Pipeline Break" →
      rule.workflow_name ≠ "" →
      t.delResp (workflowUrl rule.workflow_name) = .ok ⟨st, body⟩ →
      (trigger_rule t df rule idx).1 =
        .ok ⟨true, [triggeredMsg idx rule.check_name row.outcome],
             some (send_alert t rule.teams_webhook (alertMsg rule.check_name row.outcome)).1,
             some (if st = 200 ∨ st = 204 then
                     (true, "Successfully deleted workflow: " ++ rule.workflow_name)
                   else
                     (false, "Failed to delete workflow \x27" ++ rule.workflow_name
                        ++ "\x27. Status: " ++ toString st ++ ", Details: " ++ body))⟩ := by
  intro t df rule row idx st body h ho ha hw hr
  have hd : (delete_workflow t rule.workflow_name).1
      = .ok (if st = 200 ∨ st = 204 then
               (true, "Successfully deleted workflow: " ++ rule.workflow_name)
             else
               (false, "Failed to delete workflow \x27" ++ rule.workflow_name
                  ++ "\x27. Status: " ++ toString st ++ ", Details: " ++ body)) := by
    unfold delete_workflow
    rw [hr]
    by_cases hs : st = 200 ∨ st = 204
    · simp [hs]
    · simp [hs]
  rw [trigger_rule_hit_break_ok t df rule idx row _ h ho ⟨ha, hw⟩ hd]

/-- C2 amended, witness: a 404 from the termination endpoint on a fired
Alert + Pipeline Break rule. -/
theorem claim2_amended_witness :
    (trigger_rule t404 df1 ruleT 1).1 =
      .ok ⟨true, [triggeredMsg 1 "c1" "fail"],
           some (send_alert t404 "http://hook" (alertMsg "c1" "fail")).1,
           some (if (404 : Nat) = 200 ∨ (404 : Nat) = 204 then
                   (true, "Successfully deleted workflow: " ++ "wf1")
                 else
                   (false, "Failed to delete workflow \x27" ++ "wf1"
                      ++ "\x27. Status: " ++ toString (404 : Nat) ++ ", Details: "
                      ++ "workflow not found"))⟩ :=
  claim2_amended_404_is_failed t404 df1 ruleT ⟨"c1", "d", "fail", "t"⟩ 1 404
    "workflow not found" rfl rfl rfl (by decide) rfl

/-- C5 counterexample: with two firing rules, the first an
Alert + Pipeline Break rule whose termination DELETE fails at the transport
layer, `trigger_all_rules` aborts with that exception: no result list is
produced, and the call log shows the second rule's webhook
(`http://hook2`) was never contacted — a transport failure in one rule's
termination dispatch does prevent the evaluation and reporting of the
remaining rules (the `requests.delete` call of src/incident.py line 138 is
uncaught in `trigger_rule` and in the `trigger_all_rules` loop). -/
theorem claim5_counterexample :
    (trigger_all_rules tDown df1 [ruleT, ruleA]).1 = .error "ConnectionError: boom"
    ∧ (trigger_all_rules tDown df1 [ruleT, ruleA]).2
        = [.post "http://hook" (alertMsg "c1" "fail"), .del (workflowUrl "wf1")] :=
  ⟨rfl, rfl⟩

theorem trigger_rule_ok_of_del_ok (t : Transport) (df : List CheckRow) (rule : Rule) (idx : Nat)
    (hdel : ∀ u, ∃ r, t.delResp u = .ok r) :
    ∃ res, (trigger_rule t df rule idx).1 = .ok res := by
  cases h : rule_lookup df rule.check_name with
  | none => exact ⟨_, by rw [trigger_rule_none t df rule idx h]⟩
  | some row =>
    by_cases ho : row.outcome = rule.desired_outcome
    · by_cases hb : rule.action_type = "Alert + Pipeline Break" ∧ rule.workflow_name ≠ ""
      · have hsome : ∃ sm, (delete_workflow t rule.workflow_name).1 = .ok sm := by
          obtain ⟨r, hr⟩ := hdel (workflowUrl rule.workflow_name)
          unfold delete_workflow
          rw [hr]
          by_cases hs : r.status_code = 200 ∨ r.status_code = 204
          · exact ⟨(true, "Successfully deleted workflow: " ++ rule.workflow_name),
              by simp [hs]⟩
          · exact ⟨(false, "Failed to delete workflow \x27" ++ rule.workflow_name
                ++ "\x27. Status: " ++ toString r.status_code ++ ", Details: " ++ r.text),
              by simp [hs]⟩
        obtain ⟨sm, hd⟩ := hsome
        exact ⟨_, by rw [trigger_rule_hit_break_ok t df rule idx row sm h ho hb hd]⟩
      · exact ⟨_, by rw [trigger_rule_hit_alert_only t df rule idx row h ho hb]⟩
    · exact ⟨_, by rw [trigger_rule_miss t df rule idx row h ho]⟩

theorem trigger_loop_ok_of_del_ok (t : Transport) (df : List CheckRow) (rules : List Rule)
    (hdel : ∀ u, ∃ r, t.delResp u = .ok r) :
    ∀ k, ∃ res, (trigger_loop t df k rules).1 = .ok res ∧ res.length = rules.length := by
  induction rules with
  | nil => intro k; exact ⟨[], rfl, rfl⟩
  | cons a l ih =>
    intro k
    obtain ⟨r1, h1⟩ := trigger_rule_ok_of_del_ok t df a k hdel
    obtain ⟨res, h2, hlen⟩ := ih (k + 1)
    refine ⟨r1 :: res, ?_, by simp [hlen]⟩
    simp [trigger_loop, h1, h2]

/-- C5 (amended): a transport failure in a rule's webhook alert POST is
captured inside `send_alert` and never prevents evaluating or reporting the
remaining rules: whenever the termination endpoint does not fail at the
transport layer, `trigger_all_rules` returns one result per stored rule no
matter how the webhook transport behaves.  A transport-level failure of the
termination DELETE, by contrast, propagates and aborts the evaluation of
the remaining rules (see the counterexample). -/
theorem claim5_amended_isolation :
    ∀ (t : Transport) (df : List CheckRow) (rules : List Rule),
      (∀ u, ∃ r, t.delResp u = .ok r) →
      (trigger_all_rules t df rules).1.toOption.map List.length = some rules.length := by
  intro t df rules hdel
  obtain ⟨res, h, hlen⟩ := trigger_loop_ok_of_del_ok t df rules hdel 1
  unfold trigger_all_rules
  rw [h]
  exact congrArg some hlen

/-- C5 amended, witness: with the webhook endpoint unreachable for every
POST, all rules are still evaluated and reported. -/
theorem claim5_amended_witness :
    (trigger_all_rules tPostDown df1 [ruleT, ruleA]).1.toOption.map List.length
      = some ([ruleT, ruleA] : List Rule).length :=
  claim5_amended_isolation tPostDown df1 [ruleT, ruleA] (fun _ => ⟨⟨204, ""⟩, rfl⟩)

theorem trigger_loop_ok_spec (t : Transport) (df : List CheckRow) (rules : List Rule) :
    ∀ (k : Nat) (res : List TriggerResult),
      (trigger_loop t df k rules).1 = .ok res →
      res.length = rules.length
      ∧ ∀ i ri, rules[i]? = some ri →
          ∃ r, res[i]? = some r ∧ (trigger_rule t df ri (k + i)).1 = .ok r := by
  induction rules with
  | nil =>
    intro k res h
    have hres : res = [] := by
      have h2 : (Except.ok [] : Except String (List TriggerResult)) = .ok res := h
      exact (Except.ok.inj h2).symm
    subst hres
    refine ⟨rfl, ?_⟩
    intro i ri hri
    simp at hri
  | cons a l ih =>
    intro k res h
    cases h1 : (trigger_rule t df a k).1 with
    | error e =>
      have hthis : (trigger_loop t df k (a :: l)).1 = .error e := by
        simp [trigger_loop, h1]
      rw [hthis] at h
      cases h
    | ok r1 =>
      cases h2 : (trigger_loop t df (k + 1) l).1 with
      | error e =>
        have hthis : (trigger_loop t df k (a :: l)).1 = .error e := by
          simp [trigger_loop, h1, h2]
        rw [hthis] at h
        cases h
      | ok rs =>
        have hres : res = r1 :: rs := by
          have hthis : (trigger_loop t df k (a :: l)).1 = .ok (r1 :: rs) := by
            simp [trigger_loop, h1, h2]
          rw [hthis] at h
          exact (Except.ok.inj h).symm
        subst hres
        obtain ⟨hlen, hidx⟩ := ih (k + 1) rs h2
        refine ⟨by simp [hlen], ?_⟩
        intro i ri hri
        cases i with
        | zero =>
          have : a = ri := by simpa using hri
          subst this
          exact ⟨r1, by simp, by simpa using h1⟩
        | succ i2 =>
          have hri2 : l[i2]? = some ri := by simpa using hri
          obtain ⟨r, hr, htr⟩ := hidx i2 ri hri2
          refine ⟨r, by simpa using hr, ?_⟩
          have harith : k + (i2 + 1) = (k + 1) + i2 := by omega
          rw [harith]
          exact htr

/-- C8: when `trigger_all_rules` returns a result list, it contains exactly
one result per stored rule, in RuleStore (list) insertion order: the `i`-th
result is the result of triggering the `i`-th rule, evaluated with the
1-based display index `1 + i` of `enumerate(..., start=1)`
(src/incident.py lines 416-422). -/
theorem claim8_order_preserved :
    ∀ (t : Transport) (df : List CheckRow) (rules : List Rule) (res : List TriggerResult),
      (trigger_all_rules t df rules).1 = .ok res →
      res.length = rules.length
      ∧ ∀ i ri, rules[i]? = some ri →
          ∃ r, res[i]? = some r ∧ (trigger_rule t df ri (1 + i)).1 = .ok r := by
  intro t df rules res h
  exact trigger_loop_ok_spec t df rules 1 res h

/-- C8, witness: two rules in the all-success environment give two results
in order. -/
theorem claim8_witness :
    ([⟨true, [triggeredMsg 1 "c1" "fail"],
        some (.posted "Alert posted to Teams: http://hook2"), none⟩,
      ⟨true, [triggeredMsg 2 "c1" "fail"],
        some (.skipped "No Teams webhook URL provided. Skipping alert."), none⟩] :
        List TriggerResult).length = ([ruleA, ruleNoHook] : List Rule).length :=
  (claim8_order_preserved tOk df1 [ruleA, ruleNoHook]
    [⟨true, [triggeredMsg 1 "c1" "fail"],
        some (.posted "Alert posted to Teams: http://hook2"), none⟩,
     ⟨true, [triggeredMsg 2 "c1" "fail"],
        some (.skipped "No Teams webhook URL provided. Skipping alert."), none⟩] rfl).1

/-! ## Claims about the check-outcome index and the lineage parser -/

theorem pickLatest_proj_name (rows : List RawCheck) (n : String) (c : CheckRow)
    (h : (pickLatest n rows).map projectRow = some c) : c.check_name = n := by
  cases hp : pickLatest n rows with
  | none => rw [hp] at h; cases h
  | some r =>
    rw [hp] at h
    have hrc : projectRow r = c := by simpa using h
    rw [← hrc]
    exact (pickLatest_spec n rows r hp).2.1

theorem index_filter_nil (rows : List RawCheck) (n : String) :
    ∀ (l : List String), n ∉ l →
      ((l.filterMap (fun m => (pickLatest m rows).map projectRow)).filter
        (fun c => c.check_name = n)) = [] := by
  intro l
  induction l with
  | nil => intro _; rfl
  | cons a l2 ih =>
    intro hn
    have hna : n ≠ a := fun hcon => hn (hcon ▸ List.mem_cons_self a l2)
    have hnl : n ∉ l2 := fun hcon => hn (List.mem_cons_of_mem a hcon)
    cases hp : (pickLatest a rows).map projectRow with
    | none =>
      simp only [List.filterMap_cons, hp]
      exact ih hnl
    | some c =>
      have hcn : c.check_name = a := pickLatest_proj_name rows a c hp
      have hcnot : ¬(c.check_name = n) := by
        rw [hcn]
        exact fun hcon => hna hcon.symm
      have hdec : decide (c.check_name = n) = false := by simp [hcnot]
      simp only [List.filterMap_cons, hp, List.filter_cons, hdec]
      simp only [Bool.false_eq_true, if_false]
      exact ih hnl

theorem index_filter_len_le_one (rows : List RawCheck) (n : String) :
    ∀ (l : List String), l.Nodup →
      (((l.filterMap (fun m => (pickLatest m rows).map projectRow)).filter
        (fun c => c.check_name = n)).length ≤ 1) := by
  intro l
  induction l with
  | nil => intro _; simp
  | cons a l2 ih =>
    intro hnd
    obtain ⟨ha, hl⟩ := List.nodup_cons.mp hnd
    cases hp : (pickLatest a rows).map projectRow with
    | none =>
      simp only [List.filterMap_cons, hp]
      exact ih hl
    | some c =>
      have hcn : c.check_name = a := pickLatest_proj_name rows a c hp
      simp only [List.filterMap_cons, hp, List.filter_cons]
      by_cases hc : c.check_name = n
      · have han : a = n := by rw [← hcn, hc]
        have hna : n ∉ l2 := han ▸ ha
        have hnil := index_filter_nil rows n l2 hna
        simp [hc, hnil]
      · have hdec : decide (c.check_name = n) = false := by simp [hc]
        simp only [hdec, Bool.false_eq_true, if_false]
        exact ih hl

/-- C1: for every input table of raw outcome rows — duplicates per check
name allowed — the index built by the dedup query of `get_checks_df`
(src/incident.py lines 33-53) contains at most one row per check name
(looking any name up yields at most one live outcome), every contained row
projects a raw row whose `created_at` is maximal among that check's rows,
and every check name present in the input is represented. -/
theorem claim1_latest_per_check :
    ∀ (rows : List RawCheck) (n : String),
      ((get_checks_df rows).filter (fun c => c.check_name = n)).length ≤ 1
      ∧ (∀ c, c ∈ get_checks_df rows → c.check_name = n →
          ∃ r, r ∈ rows ∧ r.name = n ∧ projectRow r = c
            ∧ ∀ x, x ∈ rows → x.name = n → x.created_at ≤ r.created_at)
      ∧ ((∃ x, x ∈ rows ∧ x.name = n) →
          ∃ c, c ∈ get_checks_df rows ∧ c.check_name = n) := by
  intro rows n
  refine ⟨?_, ?_, ?_⟩
  · simp only [get_checks_df]
    exact index_filter_len_le_one rows n ((rows.map RawCheck.name).dedup) (List.nodup_dedup _)
  · intro c hc hcn
    simp only [get_checks_df, List.mem_filterMap] at hc
    obtain ⟨m, hm, hmc⟩ := hc
    cases hp : pickLatest m rows with
    | none => rw [hp] at hmc; cases hmc
    | some r =>
      rw [hp] at hmc
      have hrc : projectRow r = c := by simpa using hmc
      obtain ⟨hrmem, hrname, hrmax⟩ := pickLatest_spec m rows r hp
      have hmn : m = n := by
        rw [← hcn, ← hrc]
        exact hrname.symm
      subst hmn
      exact ⟨r, hrmem, hrname, hrc, hrmax⟩
  · intro hex
    obtain ⟨x, hx, hxn⟩ := hex
    obtain ⟨r, hr⟩ := pickLatest_isSome n rows ⟨x, hx, hxn⟩
    refine ⟨projectRow r, ?_, ?_⟩
    · simp only [get_checks_df, List.mem_filterMap]
      refine ⟨n, ?_, by rw [hr]; rfl⟩
      rw [List.mem_dedup]
      exact List.mem_map.mpr ⟨x, hx, hxn⟩
    · exact (pickLatest_spec n rows r hr).2.1

/-- C1, witness: a table with two rows for `c1` yields at most — and at
least — one index row for `c1`. -/
theorem claim1_witness :
    ((get_checks_df demoRaw).filter (fun c => c.check_name = "c1")).length ≤ 1
    ∧ ∃ c, c ∈ get_checks_df demoRaw ∧ c.check_name = "c1" :=
  ⟨(claim1_latest_per_check demoRaw "c1").1,
   (claim1_latest_per_check demoRaw "c1").2.2 ⟨⟨"c1", "d", "pass", "t", 5⟩, by decide, rfl⟩⟩

/-- C3: the parser's output (src/incident.py lines 101-130), read as the
spec's `ImpactIndex` mapping, sends a workflow name `w` to the set of
dataset names contributed by qualifying edges — duplicate `(w, d)`
contributions merged into a duplicate-free set — and a pair is present
exactly when some edge of the graph derives it; in particular, the spec's
round-trip graph with one Job node `a.b.myworkflow` and one edge to a
Table node `cat.cat.schema.table` maps `myworkflow` to exactly that one
dataset and introduces no other workflow key. -/
theorem claim3_impact_index :
    (∀ (g : LineageJson) (w d : String),
        d ∈ impactIndex g w ↔
          ∃ e, e ∈ g.downstreamEdges ∧ edge_pair (node_lookup g.nodes) e = some (w, d))
    ∧ (∀ (g : LineageJson) (w : String), (impactIndex g w).Nodup)
    ∧ impactIndex demoGraph "myworkflow" = ["cat.cat.schema.table"]
    ∧ (parse_downstream_lineage demoGraph).map Prod.fst = ["myworkflow"] := by
  refine ⟨?_, ?_, by decide, by decide⟩
  · intro g w d
    simp only [impactIndex, List.mem_dedup, List.mem_map, List.mem_filter,
      parse_downstream_lineage, List.mem_filterMap]
    constructor
    · rintro ⟨p, ⟨⟨e, he, hep⟩, hw⟩, hd⟩
      refine ⟨e, he, ?_⟩
      rw [hep]
      have hw2 : p.1 = w := by simpa using hw
      have hpd : p = (w, d) := Prod.ext hw2 hd
      rw [hpd]
    · rintro ⟨e, he, hep⟩
      exact ⟨(w, d), ⟨⟨e, he, hep⟩, by simp⟩, rfl⟩
  · intro g w
    exact List.nodup_dedup _

/-- C3, witness: the round-trip index at the concrete graph. -/
theorem claim3_witness :
    impactIndex demoGraph "myworkflow" = ["cat.cat.schema.table"] :=
  claim3_impact_index.2.2.1
